import Mathlib

/-!
Verification of the webhook-to-amoCRM field-mapping engine
(`src/mapping.js` and the two server variants of this repository).

The mapping engine works on untyped JSON-like data.  We shallowly embed
JavaScript values as `JSValue` and translate each function of
`src/mapping.js` (`getValueByPath`, `applyMapping`, the `leadMapping` and
`contactMapping` field tables together with their inline `transform`
closures) into executable Lean definitions.  Operations that can raise a
JavaScript `TypeError` (property access on `null`/`undefined`, calling a
string method on a non-string) return `Except String JSValue`, so that the
"never throws" and "per-field isolation" contracts can be stated.

Numeric values are embedded as integers plus an explicit `nan`
constructor; the payload values handled by the mappings (prices, call
durations in milliseconds, epoch timestamps) are integral, and `NaN`
propagation of `parseInt`/arithmetic is modelled explicitly.
-/

/-- A JavaScript runtime value as used by the mapping engine: the nested
JSON payload plus `undefined` and `NaN`.  Objects are insertion-ordered
field lists (keys unique, as produced by `JSON.parse`). -/
inductive JSValue where
  | undefined
  | null
  | bool (b : Bool)
  | num (n : Int)
  | nan
  | str (s : String)
  | arr (elems : List JSValue)
  | obj (fields : List (String × JSValue))

/-- JavaScript truthiness: `undefined`, `null`, `false`, `0`, `NaN` and
`""` are falsy; every object and array is truthy. -/
def truthy : JSValue → Bool
  | .undefined => false
  | .null => false
  | .bool b => b
  | .num n => n != 0
  | .nan => false
  | .str s => s != ""
  | .arr _ => true
  | .obj _ => true

/-- `v === undefined`. -/
def isUndefined : JSValue → Bool
  | .undefined => true
  | _ => false

/-- `v === null || v === undefined` (the omission test of `applyMapping`). -/
def isNullOrUndefined : JSValue → Bool
  | .null => true
  | .undefined => true
  | _ => false

/-- Nullish values, i.e. the receivers on which property access throws. -/
def nullish : JSValue → Bool
  | .null => true
  | .undefined => true
  | _ => false

/-- First-match lookup in an object's field list (object keys are unique). -/
def lookupField : List (String × JSValue) → String → JSValue
  | [], _ => .undefined
  | (k, v) :: rest, key => if k = key then v else lookupField rest key

/-- Property read on a non-nullish receiver (never throws in JavaScript).
Strings and arrays expose `length`; other primitives expose no own
properties relevant to the mappings (inherited methods are accessed only
via calls, which are modelled separately as throwing operations). -/
def getProp (v : JSValue) (key : String) : JSValue :=
  match v with
  | .obj fields => lookupField fields key
  | .str s => if key = "length" then .num s.length else .undefined
  | .arr elems => if key = "length" then .num elems.length else .undefined
  | _ => .undefined

/-- Plain property access `v.key`: throws a `TypeError` when the receiver
is nullish. -/
def jsGet (v : JSValue) (key : String) : Except String JSValue :=
  if nullish v then .error ("TypeError: cannot read properties of nullish value (reading " ++ key ++ ")")
  else .ok (getProp v key)

/-- Optional-chaining access `v?.key`: yields `undefined` on a nullish
receiver instead of throwing. -/
def optGet (v : JSValue) (key : String) : JSValue :=
  if nullish v then .undefined else getProp v key

/-- JavaScript `a || b`. -/
def jsOr (a b : JSValue) : JSValue :=
  if truthy a then a else b

/-- Whitespace trimming (as `String.prototype.trim`), computed
structurally over the character list. -/
def trimStr (s : String) : String :=
  String.mk (((s.toList.dropWhile Char.isWhitespace).reverse.dropWhile Char.isWhitespace).reverse)

/-- `s.startsWith(pre)`, computed structurally over the character lists. -/
def strStartsWith (s pre : String) : Bool :=
  pre.toList.isPrefixOf s.toList

/-- Splitting a character list at `'.'` (JavaScript `split('.')`): the
empty list yields one empty segment, and consecutive dots yield empty
segments, exactly as in JavaScript. -/
def splitCharDot : List Char → List (List Char)
  | [] => [[]]
  | c :: rest =>
    let r := splitCharDot rest
    if c = '.' then [] :: r
    else
      match r with
      | [] => [[c]]
      | h :: t => (c :: h) :: t

/-- `path.split('.')` of the source, as a list of segment strings. -/
def jsSplitDot (path : String) : List String :=
  (splitCharDot path.toList).map String.mk

mutual

/-- JavaScript `ToString` on the values reachable here: array elements are
joined with commas, with nullish elements rendered empty; plain objects
stringify to `[object Object]`. -/
def jsToString : JSValue → String
  | .undefined => "undefined"
  | .null => "null"
  | .bool b => if b then "true" else "false"
  | .num n => toString n
  | .nan => "NaN"
  | .str s => s
  | .arr elems => jsToStringElems elems
  | .obj _ => "[object Object]"
termination_by structural v => v

/-- Comma-joined rendering of array elements (`Array.prototype.toString`);
nullish elements render empty. -/
def jsToStringElems : List JSValue → String
  | [] => ""
  | [.null] => ""
  | [.undefined] => ""
  | [v] => jsToString v
  | .null :: rest => "," ++ jsToStringElems rest
  | .undefined :: rest => "," ++ jsToStringElems rest
  | v :: rest => jsToString v ++ "," ++ jsToStringElems rest
termination_by structural l => l

end

/-- Leading decimal digits of a character list as a natural number;
`none` when there is no leading digit. -/
def natOfLeadingDigits (cs : List Char) : Option Nat :=
  let ds := cs.takeWhile Char.isDigit
  if ds.isEmpty then none
  else some (ds.foldl (fun acc c => acc * 10 + (c.toNat - '0'.toNat)) 0)

/-- `parseInt` on a string (radix 10): skip leading whitespace, optional
sign, then the longest digit prefix; `none` models `NaN`.  The hexadecimal
`0x` prefix of `parseInt` is not modelled (no configuration or payload
value handled by the mappings is hexadecimal). -/
def parseIntStr (s : String) : Option Int :=
  let cs := s.toList.dropWhile Char.isWhitespace
  match cs with
  | '-' :: rest => (natOfLeadingDigits rest).map (fun n => -(n : Int))
  | '+' :: rest => (natOfLeadingDigits rest).map (fun n => (n : Int))
  | _ => (natOfLeadingDigits cs).map (fun n => (n : Int))

/-- `parseInt(value)`: the argument is coerced with `ToString` first. -/
def jsParseInt (v : JSValue) : Option Int :=
  parseIntStr (jsToString v)

/-- `Number` conversion of a string: empty/whitespace is `0`, a complete
(optionally signed) integer literal is its value, anything else is `NaN`
(`none`).  Non-integral numerals are outside the data handled here. -/
def strToNumber (s : String) : Option Int :=
  let t := trimStr s
  if t = "" then some 0
  else
    let cs := t.toList
    let (sign, ds) : Int × List Char :=
      match cs with
      | '-' :: rest => (-1, rest)
      | '+' :: rest => (1, rest)
      | _ => (1, cs)
    if ds.isEmpty || !ds.all Char.isDigit then none
    else some (sign * (ds.foldl (fun acc c => acc * 10 + (c.toNat - '0'.toNat)) 0 : Nat))

/-- JavaScript `ToNumber` (as needed by `>`, `/`, `%`): `none` is `NaN`.
Arrays and objects go through their string representation. -/
def toNumber : JSValue → Option Int
  | .undefined => none
  | .null => some 0
  | .bool b => some (if b then 1 else 0)
  | .num n => some n
  | .nan => none
  | .str s => strToNumber s
  | .arr elems => strToNumber (jsToStringElems elems)
  | .obj _ => none

/-- JavaScript `v > bound` for an integer bound: both sides are converted
to numbers, and any `NaN` makes the comparison false. -/
def jsGTnum (v : JSValue) (bound : Int) : Bool :=
  match toNumber v with
  | some m => bound < m
  | none => false

/-- `value.trim()`: a `TypeError` unless the receiver is a string. -/
def jsTrim : JSValue → Except String JSValue
  | .str s => .ok (.str (trimStr s))
  | _ => .error "TypeError: value.trim is not a function"

/-- `value.substring(0, n)`: a `TypeError` unless the receiver is a string. -/
def jsSubstring (v : JSValue) (n : Nat) : Except String String :=
  match v with
  | .str s => .ok (s.take n)
  | _ => .error "TypeError: value.substring is not a function"

/-- `phone.replace(/\D/g, '')`: keep only the decimal digits; a
`TypeError` unless the receiver is a string. -/
def jsReplaceNonDigits : JSValue → Except String String
  | .str s => .ok (String.mk (s.toList.filter Char.isDigit))
  | _ => .error "TypeError: value.replace is not a function"

/-- The `process.env` configuration consumed by the mappings and the two
server variants. `none` is an unset variable; a set variable is its string
value (possibly empty, which is falsy). -/
structure Config where
  subdomain : Option String := none
  accessToken : Option String := none
  pipelineId : Option String := none
  statusId : Option String := none
  agreementsFieldId : Option String := none
  clientFactsFieldId : Option String := none
  smsTextFieldId : Option String := none
  callDurationFieldId : Option String := none
  callStartedFieldId : Option String := none
  callRecordUrlFieldId : Option String := none
  callHistoryFieldId : Option String := none
  agreementsTimeFieldId : Option String := none
  regionFieldId : Option String := none
  companyFieldId : Option String := none
  contactCompanyFieldId : Option String := none
  contactCityFieldId : Option String := none

/-- Truthiness of `process.env.X`: set and non-empty. -/
def envTruthy : Option String → Bool
  | some s => s != ""
  | none => false

/-- `process.env.X || null`, the static `value` of the mapping tables. -/
def envOrNull : Option String → JSValue
  | some s => if s = "" then .null else .str s
  | none => .null

/-- A `custom_fields_values` entry keyed by a configured numeric field id:
`{ field_id: parseInt(env), values: [{ value }] }`. -/
def mkIdEntry (envId : Option String) (v : JSValue) : JSValue :=
  .obj [("field_id", match parseIntStr ((envId).getD "") with
                     | some n => .num n
                     | none => .nan),
        ("values", .arr [.obj [("value", v)]])]

/-- The standard-field phone entry of the contact mapping. -/
def phoneEntry (v : String) : JSValue :=
  .obj [("field_code", .str "PHONE"),
        ("values", .arr [.obj [("value", .str v), ("enum_code", .str "WORK")]])]

/-- The standard-field email entry of the contact mapping. -/
def emailEntry (v : JSValue) : JSValue :=
  .obj [("field_code", .str "EMAIL"),
        ("values", .arr [.obj [("value", v), ("enum_code", .str "WORK")]])]

/-- One step of the `reduce` inside `getValueByPath`:
`current && current[key] !== undefined ? current[key] : null`.
The property read happens only behind the truthiness guard, which is what
keeps the walk from throwing on nullish intermediates. -/
def gvpStep (current : JSValue) (key : String) : Except String JSValue :=
  if truthy current then do
    let v ← jsGet current key
    pure (if isUndefined v then JSValue.null else v)
  else pure JSValue.null

/-- The `reduce` of `getValueByPath` over the split path segments. -/
def walkPath (current : JSValue) : List String → Except String JSValue
  | [] => .ok current
  | key :: rest =>
    match gvpStep current key with
    | .ok next => walkPath next rest
    | .error e => .error e

/-- `getValueByPath(obj, path)` from `src/mapping.js`: the sentinels
`''`, `'static'` and `'multiple'` short-circuit to `null`; otherwise the
dot-split segments are walked. -/
def getValueByPath (obj : JSValue) (path : String) : Except String JSValue :=
  if path = "" || path = "static" || path = "multiple" then .ok .null
  else walkPath obj (jsSplitDot path)

/-- The `name` transform of `leadMapping`: truncate the agreements text to
250 characters, else fall back to client name, phone, or a literal. -/
def leadNameTransform (value data : JSValue) : Except String JSValue := do
  if truthy value then
    if jsGTnum (getProp value "length") 250 then do
      let s ← jsSubstring value 247
      pure (JSValue.str (s ++ "..."))
    else pure value
  else
    let call0 ← jsGet data "call"
    let clientName := optGet (optGet call0 "agreements") "client_name"
    if truthy clientName then
      pure (JSValue.str ("Лид от AI менеджера: " ++ jsToString clientName))
    else do
      let contact0 ← jsGet data "contact"
      let phone := optGet contact0 "phone"
      if truthy phone then
        pure (JSValue.str ("Лид от AI менеджера: " ++ jsToString phone))
      else pure (JSValue.str "Лид от AI менеджера")

/-- The `price` transform of `leadMapping`: falsy raw values become
`null`; otherwise `parseInt`, with `NaN` also becoming `null`. -/
def leadPriceTransform (value _data : JSValue) : Except String JSValue :=
  if !truthy value then pure JSValue.null
  else
    match jsParseInt value with
    | some n => pure (JSValue.num n)
    | none => pure JSValue.null

/-- `` `${minutes} мин ${seconds} сек` `` for `call.duration` milliseconds:
`Math.floor(d / 60000)` and `Math.floor((d % 60000) / 1000)`, with `NaN`
propagating into the template string. -/
def durText (d : JSValue) : String :=
  match toNumber d with
  | some n => toString (Int.fdiv n 60000) ++ " мин " ++ toString (Int.fdiv (Int.tmod n 60000) 1000) ++ " сек"
  | none => "NaN мин NaN сек"

/-- `new Date(call.startedAt).getTime()` in milliseconds; `none` is `NaN`.
A numeric `startedAt` is already an epoch-milliseconds timestamp.  Date
parsing of strings is engine-defined and not exercised by any claim, so
non-numeric inputs are modelled as an invalid date (`NaN`). -/
def dateGetTime : JSValue → Option Int
  | .num n => some n
  | _ => none

/-- The epoch-seconds value pushed for `call.startedAt`:
`Math.floor(getTime() / 1000)`. -/
def startedAtValue (v : JSValue) : JSValue :=
  match dateGetTime v with
  | some t => .num (Int.fdiv t 1000)
  | none => .nan

/-- The `custom_fields_values` transform of `leadMapping`: ten entries,
each gated by both a configured field id and a truthy payload value. -/
def leadCustomFields (cfg : Config) (_value data : JSValue) : Except String JSValue := do
  let call0 ← jsGet data "call"
  let agreements := jsOr (optGet call0 "agreements") (JSValue.obj [])
  let call := jsOr call0 (JSValue.obj [])
  let contact0 ← jsGet data "contact"
  let contact := jsOr contact0 (JSValue.obj [])
  let cfs : List JSValue := []
  let cfs := if envTruthy cfg.agreementsFieldId && truthy (getProp agreements "agreements") then
      cfs ++ [mkIdEntry cfg.agreementsFieldId (getProp agreements "agreements")] else cfs
  let cfs := if envTruthy cfg.clientFactsFieldId && truthy (getProp agreements "client_facts") then
      cfs ++ [mkIdEntry cfg.clientFactsFieldId (getProp agreements "client_facts")] else cfs
  let cfs := if envTruthy cfg.smsTextFieldId && truthy (getProp agreements "smsText") then
      cfs ++ [mkIdEntry cfg.smsTextFieldId (getProp agreements "smsText")] else cfs
  let cfs := if envTruthy cfg.callDurationFieldId && truthy (getProp call "duration") then
      cfs ++ [mkIdEntry cfg.callDurationFieldId (.str (durText (getProp call "duration")))] else cfs
  let cfs := if envTruthy cfg.callStartedFieldId && truthy (getProp call "startedAt") then
      cfs ++ [mkIdEntry cfg.callStartedFieldId (startedAtValue (getProp call "startedAt"))] else cfs
  let cfs := if envTruthy cfg.callRecordUrlFieldId && truthy (getProp call "recordUrl") then
      cfs ++ [mkIdEntry cfg.callRecordUrlFieldId (getProp call "recordUrl")] else cfs
  let cfs := if envTruthy cfg.callHistoryFieldId && truthy (getProp agreements "historycall") then
      cfs ++ [mkIdEntry cfg.callHistoryFieldId (getProp agreements "historycall")] else cfs
  let cfs := if envTruthy cfg.agreementsTimeFieldId && truthy (getProp agreements "agreements_time") then
      cfs ++ [mkIdEntry cfg.agreementsTimeFieldId (getProp agreements "agreements_time")] else cfs
  let cfs := if envTruthy cfg.regionFieldId && truthy (optGet (getProp contact "dadataPhoneInfo") "region") then
      cfs ++ [mkIdEntry cfg.regionFieldId (optGet (getProp contact "dadataPhoneInfo") "region")] else cfs
  let cfs := if envTruthy cfg.companyFieldId && truthy (optGet (getProp contact "additionalFields") "company") then
      cfs ++ [mkIdEntry cfg.companyFieldId (optGet (getProp contact "additionalFields") "company")] else cfs
  pure (if cfs.isEmpty then JSValue.null else JSValue.arr cfs)

/-- The `name` transform of `contactMapping`: trimmed client name, else
`Контакт {phone}`, else the unnamed-contact literal. -/
def contactNameTransform (value data : JSValue) : Except String JSValue := do
  if truthy value then
    jsTrim value
  else
    let contact0 ← jsGet data "contact"
    let phone := optGet contact0 "phone"
    if truthy phone then pure (JSValue.str ("Контакт " ++ jsToString phone))
    else pure (JSValue.str "Контакт без имени")

/-- The `custom_fields_values` transform of `contactMapping`: the PHONE
and EMAIL standard-field entries are unconditional on configuration; the
company and city entries are gated by configured field ids. -/
def contactCustomFields (cfg : Config) (_value data : JSValue) : Except String JSValue := do
  let contact0 ← jsGet data "contact"
  let contact := jsOr contact0 (JSValue.obj [])
  let cfs : List JSValue := []
  let cfs ← if truthy (getProp contact "phone") then do
      let pf ← jsReplaceNonDigits (getProp contact "phone")
      pure (if pf != "" then
              cfs ++ [phoneEntry (if strStartsWith pf "7" then "+" ++ pf else "+7" ++ pf)]
            else cfs)
    else pure cfs
  let cfs := if truthy (optGet (getProp contact "additionalFields") "email") then
      cfs ++ [emailEntry (optGet (getProp contact "additionalFields") "email")] else cfs
  let cfs := if envTruthy cfg.contactCompanyFieldId && truthy (optGet (getProp contact "additionalFields") "company") then
      cfs ++ [mkIdEntry cfg.contactCompanyFieldId (optGet (getProp contact "additionalFields") "company")] else cfs
  let cfs := if envTruthy cfg.contactCityFieldId && truthy (optGet (getProp contact "additionalFields") "city") then
      cfs ++ [mkIdEntry cfg.contactCityFieldId (optGet (getProp contact "additionalFields") "city")] else cfs
  pure (if cfs.isEmpty then JSValue.null else JSValue.arr cfs)

/-- One entry of a mapping table: `source` path or sentinel, the static
`value` (present only on static fields), and the optional `transform`. -/
structure FieldConfig where
  source : String
  value : JSValue := .undefined
  transform : Option (JSValue → JSValue → Except String JSValue) := none

/-- `leadMapping` from `src/mapping.js`, in declaration order. -/
def leadMapping (cfg : Config) : List (String × FieldConfig) :=
  [("name", { source := "call.agreements.agreements", transform := some leadNameTransform }),
   ("pipeline_id", { source := "static", value := envOrNull cfg.pipelineId }),
   ("status_id", { source := "static", value := envOrNull cfg.statusId }),
   ("price", { source := "call.agreements.price", transform := some leadPriceTransform }),
   ("custom_fields_values", { source := "multiple", transform := some (leadCustomFields cfg) })]

/-- `contactMapping` from `src/mapping.js`, in declaration order. -/
def contactMapping (cfg : Config) : List (String × FieldConfig) :=
  [("name", { source := "call.agreements.client_name", transform := some contactNameTransform }),
   ("custom_fields_values", { source := "multiple", transform := some (contactCustomFields cfg) })]

/-- The per-field body of `applyMapping`'s loop (inside its `try`):
static value, multi-source transform, or path lookup plus transform. -/
def computeField (data : JSValue) (cfg : FieldConfig) : Except String JSValue :=
  if cfg.source = "static" then .ok cfg.value
  else if cfg.source = "multiple" then
    match cfg.transform with
    | some t => t .null data
    | none => .ok .null
  else do
    let raw ← getValueByPath data cfg.source
    match cfg.transform with
    | some t => t raw data
    | none => .ok raw

/-- The loop of `applyMapping`: a thrown per-field error is caught (and
logged, a side effect outside this model) and the field skipped; a
`null`/`undefined` result is omitted; otherwise the field is kept in
iteration order. -/
def applyMappingGo (data : JSValue) : List (String × FieldConfig) → List (String × JSValue)
  | [] => []
  | (name, cfg) :: rest =>
    match computeField data cfg with
    | .ok v =>
      if isNullOrUndefined v then applyMappingGo data rest
      else (name, v) :: applyMappingGo data rest
    | .error _ => applyMappingGo data rest

/-- `applyMapping(webhookData, mapping)` from `src/mapping.js`. -/
def applyMapping (webhookData : JSValue) (mapping : List (String × FieldConfig)) : List (String × JSValue) :=
  applyMappingGo webhookData mapping

/-- `leadFields.key` on the flat output object: `undefined` when absent. -/
def jsField (fields : List (String × JSValue)) (key : String) : JSValue :=
  lookupField fields key

/-- Replace the value of an existing key (the `leadFields.x = parseInt(...)`
re-assignments; both keys are present when these run). -/
def setField (fields : List (String × JSValue)) (key : String) (v : JSValue) : List (String × JSValue) :=
  fields.map (fun p => if p.1 = key then (p.1, v) else p)

/-- Outcome of building a lead before any network transmission: either an
error thrown to the caller, or the request body that would be submitted. -/
inductive LeadBuild where
  | err (msg : String)
  | submit (leadFields : List (String × JSValue))

/-- `getAmoCRMBaseUrl` of the detailed server variant (`src/unnamed/part_000`):
missing/blank subdomain throws; the subdomain is cleaned to
`[a-zA-Z0-9-]` and an all-invalid value throws.  (The subsequent `new URL`
validation always succeeds on the constructed string and is elided.) -/
def getAmoCRMBaseUrl (cfg : Config) : Except String String :=
  match cfg.subdomain with
  | none => .error "Ошибка при отправке вебхука: Invalid URL - AMOCRM_SUBDOMAIN не установлен в переменных окружения"
  | some s =>
    if trimStr s = "" then .error "Ошибка при отправке вебхука: Invalid URL - AMOCRM_SUBDOMAIN не установлен в переменных окружения"
    else
      let clean := String.mk ((trimStr s).toList.filter (fun c => c.isAlpha || c.isDigit || c = '-'))
      if clean = "" then .error "Ошибка при отправке вебхука: Invalid URL - AMOCRM_SUBDOMAIN содержит недопустимые символы или пустой"
      else .ok ("https://" ++ clean ++ ".amocrm.ru")

/-- `getAmoCRMBaseUrl` of the older server variant (`src/unnamed/part_001`). -/
def getAmoCRMBaseUrlV2 (cfg : Config) : Except String String :=
  match cfg.subdomain with
  | none => .error "AMOCRM_SUBDOMAIN не установлен в переменных окружения"
  | some s =>
    if s = "" then .error "AMOCRM_SUBDOMAIN не установлен в переменных окружения"
    else .ok ("https://" ++ s ++ ".amocrm.ru")

/-- `getAmoCRMToken` (identical in both server variants). -/
def getAmoCRMToken (cfg : Config) : Except String String :=
  match cfg.accessToken with
  | none => .error "AMOCRM_ACCESS_TOKEN не установлен в переменных окружения"
  | some t =>
    if t = "" then .error "AMOCRM_ACCESS_TOKEN не установлен в переменных окружения"
    else .ok t

/-- The `_embedded.contacts` linkage of the detailed variant.  The contact
id returned by the prior upsert step is modelled as an integer (the
string-to-number coercion of the source collapses); a non-positive id is
skipped as in the source. -/
def attachContact (leadFields : List (String × JSValue)) (contactId : Option Int) : List (String × JSValue) :=
  match contactId with
  | none => leadFields
  | some n =>
    if 0 < n then
      leadFields ++ [("_embedded", .obj [("contacts", .arr [.obj [("id", .num n), ("is_main", .bool true)]])])]
    else leadFields

/-- The pure pre-network portion of `createLeadInAmoCRM` in the detailed
variant (`src/unnamed/part_000`): base URL and token, mapping application,
name and pipeline-id validation, numeric coercion of pipeline/status ids,
and contact linkage — everything up to the `axios.post`. -/
def createLeadPreflight (cfg : Config) (data : JSValue) (contactId : Option Int) : LeadBuild :=
  match getAmoCRMBaseUrl cfg with
  | .error e => .err e
  | .ok _ =>
  match getAmoCRMToken cfg with
  | .error e => .err e
  | .ok _ =>
    let leadFields := applyMapping data (leadMapping cfg)
    if !truthy (jsField leadFields "name") then
      .err "Не удалось создать название сделки. Проверьте данные вебхука."
    else if !truthy (jsField leadFields "pipeline_id") then
      .err "AMOCRM_PIPELINE_ID не установлен в переменных окружения. Это обязательное поле для создания сделки."
    else
      match jsParseInt (jsField leadFields "pipeline_id") with
      | none => .err "Некорректный формат AMOCRM_PIPELINE_ID. Должно быть число."
      | some pid =>
        let leadFields := setField leadFields "pipeline_id" (.num pid)
        if truthy (jsField leadFields "status_id") then
          match jsParseInt (jsField leadFields "status_id") with
          | none => .err "Некорректный формат AMOCRM_STATUS_ID. Должно быть число."
          | some sid => .submit (attachContact (setField leadFields "status_id" (.num sid)) contactId)
        else .submit (attachContact leadFields contactId)

/-- The pure pre-network portion of `createLeadInAmoCRM` in the older
variant (`src/unnamed/part_001`): base URL and token, mapping application
and the v2-style `contacts_id` linkage — it performs no validation of
`name` or `pipeline_id` before the `axios.post`. -/
def createLeadPreflightV2 (cfg : Config) (data : JSValue) (contactId : Option Int) : LeadBuild :=
  match getAmoCRMBaseUrlV2 cfg with
  | .error e => .err e
  | .ok _ =>
  match getAmoCRMToken cfg with
  | .error e => .err e
  | .ok _ =>
    let leadFields := applyMapping data (leadMapping cfg)
    let leadFields :=
      match contactId with
      | some n => leadFields ++ [("contacts_id", .arr [.num n])]
      | none => leadFields
    .submit leadFields

/-- A configuration with every environment variable unset. -/
def cfgEmpty : Config := {}

/-- A payload carrying only a phone number: `contact.phone` set, empty `call`. -/
def payloadPhoneOnly : JSValue :=
  .obj [("contact", .obj [("phone", .str "79990001234")]), ("call", .obj [])]

/-- A payload with an eight-prefixed phone number. -/
def payloadPhone8 : JSValue :=
  .obj [("contact", .obj [("phone", .str "89990001234")]), ("call", .obj [])]

/-- A payload whose `call.agreements` is present but empty, with a phone. -/
def payloadEmptyAgreements : JSValue :=
  .obj [("contact", .obj [("phone", .str "79990001234")]), ("call", .obj [("agreements", .obj [])])]

/-- A payload whose only content is an agreements text `s`. -/
def agreementsPayload (s : String) : JSValue :=
  .obj [("contact", .obj []), ("call", .obj [("agreements", .obj [("agreements", .str s)])])]

/-- A payload whose only content is an agreements price `v`. -/
def pricePayload (v : JSValue) : JSValue :=
  .obj [("contact", .obj []), ("call", .obj [("agreements", .obj [("price", v)])])]

/-- A payload with an arbitrary `contact.phone` string and empty `call`. -/
def phonePayload (s : String) : JSValue :=
  .obj [("contact", .obj [("phone", .str s)]), ("call", .obj [])]

/-- The string of three-hundred `X` characters from the spec's truncation
example. -/
def xStr300 : String := String.mk (List.replicate 300 'X')

/-- A payload whose `call.agreements.client_name` is a (truthy) number, so
the contact `name` transform's `value.trim()` throws a `TypeError`. -/
def payloadBadName : JSValue :=
  .obj [("contact", .obj [("phone", .str "79990001234")]),
        ("call", .obj [("agreements", .obj [("client_name", .num 5)])])]

/-- A configuration with credentials but no `AMOCRM_PIPELINE_ID`. -/
def cfgNoPipeline : Config := { subdomain := some "test", accessToken := some "token" }

/-- The optional-chain walk `obj?.a?.b?....` over path segments; its being
`undefined` is what "the path is missing" means for a payload. -/
def optGetMany (obj : JSValue) (parts : List String) : JSValue :=
  parts.foldl optGet obj

theorem truthy_not_nullish {v : JSValue} (h : truthy v = true) : nullish v = false := by
  cases v <;> simp_all [truthy, nullish]

theorem isNullOrUndefined_false_iff {v : JSValue} :
    isNullOrUndefined v = false ↔ v ≠ JSValue.null ∧ v ≠ JSValue.undefined := by
  cases v <;> simp [isNullOrUndefined]

theorem isUndefined_false_iff {v : JSValue} : isUndefined v = false ↔ v ≠ JSValue.undefined := by
  cases v <;> simp [isUndefined]

theorem gvpStep_falsy {c : JSValue} (k : String) (h : truthy c = false) :
    gvpStep c k = .ok JSValue.null := by
  simp [gvpStep, h, pure, Except.pure]

theorem gvpStep_truthy {c : JSValue} (k : String) (h : truthy c = true) :
    gvpStep c k = .ok (if isUndefined (getProp c k) then JSValue.null else getProp c k) := by
  simp [gvpStep, h, jsGet, truthy_not_nullish h, Except.bind]

theorem walkPath_null (parts : List String) : walkPath JSValue.null parts = .ok JSValue.null := by
  induction parts with
  | nil => rfl
  | cons k rest ih => simp [walkPath, gvpStep_falsy k (by rfl : truthy JSValue.null = false), ih]

theorem walkPath_ok (parts : List String) : ∀ c : JSValue, ∃ v, walkPath c parts = .ok v := by
  induction parts with
  | nil => exact fun c => ⟨c, rfl⟩
  | cons k rest ih =>
    intro c
    by_cases h : truthy c
    · obtain ⟨v, hv⟩ := ih (if isUndefined (getProp c k) then JSValue.null else getProp c k)
      exact ⟨v, by simp [walkPath, gvpStep_truthy k h, hv]⟩
    · obtain ⟨v, hv⟩ := ih JSValue.null
      exact ⟨v, by simp [walkPath, gvpStep_falsy k (by simpa using h), hv]⟩

theorem walkPath_append (l₁ l₂ : List String) : ∀ c : JSValue,
    walkPath c (l₁ ++ l₂) =
      match walkPath c l₁ with
      | .ok next => walkPath next l₂
      | .error e => .error e := by
  induction l₁ with
  | nil => intro c; rfl
  | cons k rest ih =>
    intro c
    simp only [List.cons_append, walkPath]
    cases gvpStep c k with
    | ok next => exact ih next
    | error e => rfl

theorem walkPath_missing (parts : List String) (hne : parts ≠ []) :
    ∀ obj : JSValue, optGetMany obj parts = JSValue.undefined →
      walkPath obj parts = .ok JSValue.null := by
  induction parts with
  | nil => exact absurd rfl hne
  | cons k rest ih =>
    intro obj hmiss
    by_cases ht : truthy obj
    · have hopt : optGet obj k = getProp obj k := by
        simp [optGet, truthy_not_nullish ht]
      have hstep : optGetMany (getProp obj k) rest = JSValue.undefined := by
        have h0 : optGetMany obj (k :: rest) = optGetMany (optGet obj k) rest := rfl
        rw [h0, hopt] at hmiss
        exact hmiss
      by_cases hu : isUndefined (getProp obj k)
      · simp [walkPath, gvpStep_truthy k ht, hu, walkPath_null]
      · cases rest with
        | nil =>
          exfalso
          have h1 : optGetMany (getProp obj k) [] = getProp obj k := rfl
          rw [h1] at hstep
          exact hu (by rw [hstep]; rfl)
        | cons r rs =>
          simp only [walkPath, gvpStep_truthy k ht]
          rw [if_neg hu]
          exact ih (List.cons_ne_nil r rs) (getProp obj k) hstep
    · have hfalsy : truthy obj = false := by simpa using ht
      simp [walkPath, gvpStep_falsy k hfalsy, walkPath_null]

theorem lookup_applyMapping_of_ok (data : JSValue) (mapping : List (String × FieldConfig))
    (key : String) (v : JSValue) :
    (applyMapping data mapping).lookup key = some v →
      v ≠ JSValue.null ∧ v ≠ JSValue.undefined := by
  induction mapping with
  | nil => intro h; simp [applyMapping, applyMappingGo] at h
  | cons hd rest ih =>
    obtain ⟨name, fc⟩ := hd
    intro h
    simp only [applyMapping, applyMappingGo] at h ih
    cases hcf : computeField data fc with
    | ok w =>
      rw [hcf] at h
      simp only [] at h
      by_cases hw : isNullOrUndefined w
      · rw [if_pos hw] at h
        exact ih h
      · rw [if_neg hw] at h
        rw [List.lookup] at h
        cases hk : (key == name) with
        | true =>
          rw [hk] at h
          simp only [Option.some.injEq] at h
          subst h
          exact isNullOrUndefined_false_iff.mp (by simpa using hw)
        | false =>
          rw [hk] at h
          exact ih h
    | error e =>
      rw [hcf] at h
      exact ih h

theorem applyMapping_error_field (data : JSValue) (pre post : List (String × FieldConfig))
    (name : String) (fc : FieldConfig) (e : String)
    (h : computeField data fc = .error e) :
    applyMapping data (pre ++ (name, fc) :: post) = applyMapping data (pre ++ post) := by
  induction pre with
  | nil => simp [applyMapping, applyMappingGo, h]
  | cons hd pre ih =>
    obtain ⟨n, c⟩ := hd
    simp only [applyMapping, List.cons_append, applyMappingGo] at ih ⊢
    cases hcc : computeField data c with
    | ok w =>
      by_cases hw : isNullOrUndefined w
      · simp [hw, ih]
      · simp [hw, ih]
    | error e2 => simp [ih]

theorem lookup_applyMapping_eq_none (data : JSValue) (mapping : List (String × FieldConfig))
    (key : String)
    (h : ∀ nc ∈ mapping, nc.1 = key →
      ∀ v, computeField data nc.2 = .ok v → isNullOrUndefined v = true) :
    (applyMapping data mapping).lookup key = none := by
  induction mapping with
  | nil => rfl
  | cons hd rest ih =>
    obtain ⟨name, fc⟩ := hd
    have hrest : ∀ nc ∈ rest, nc.1 = key →
        ∀ v, computeField data nc.2 = .ok v → isNullOrUndefined v = true :=
      fun nc hm => h nc (List.mem_cons_of_mem _ hm)
    simp only [applyMapping, applyMappingGo] at ih ⊢
    cases hcf : computeField data fc with
    | ok w =>
      simp only []
      by_cases hw : isNullOrUndefined w
      · rw [if_pos hw]
        exact ih hrest
      · rw [if_neg hw]
        rw [List.lookup]
        cases hk : (key == name) with
        | true =>
          exfalso
          have hkey : name = key := (beq_iff_eq.mp hk).symm
          have := h (name, fc) (List.mem_cons_self _ _) hkey w hcf
          simp [this] at hw
        | false => exact ih hrest
    | error e => exact ih hrest

theorem leadNameTransform_long (s : String) (data : JSValue) (h : 250 < s.length) :
    leadNameTransform (.str s) data = .ok (.str (s.take 247 ++ "...")) := by
  have hne : s ≠ "" := by
    intro he
    subst he
    simp at h
  have htr : truthy (JSValue.str s) = true := by simp [truthy, hne]
  have hgt : jsGTnum (getProp (JSValue.str s) "length") 250 = true := by
    simp [getProp, jsGTnum, toNumber, h]
  simp [leadNameTransform, htr, hgt, jsSubstring, Bind.bind, Except.bind, pure, Except.pure]

theorem leadNameTransform_short (s : String) (data : JSValue) (hne : s ≠ "")
    (h : s.length ≤ 250) :
    leadNameTransform (.str s) data = .ok (.str s) := by
  have htr : truthy (JSValue.str s) = true := by simp [truthy, hne]
  have hgt : jsGTnum (getProp (JSValue.str s) "length") 250 = false := by
    simp [getProp, jsGTnum, toNumber]
    omega
  simp [leadNameTransform, htr, hgt, pure, Except.pure]

theorem getValueByPath_agreements (s : String) :
    getValueByPath (agreementsPayload s) "call.agreements.agreements" = .ok (.str s) := rfl

theorem applyMapping_lead_name (cfg : Config) (data v : JSValue)
    (h : computeField data
      { source := "call.agreements.agreements", transform := some leadNameTransform } = .ok v)
    (hv : isNullOrUndefined v = false) :
    (applyMapping data (leadMapping cfg)).lookup "name" = some v := by
  simp only [applyMapping, leadMapping, applyMappingGo, h]
  rw [if_neg (by simp [hv])]
  rw [List.lookup]
  rfl

theorem applyMapping_contact_cfv (cfg : Config) (data w : JSValue)
    (hcf : contactCustomFields cfg .null data = .ok w) (hw : isNullOrUndefined w = false) :
    (applyMapping data (contactMapping cfg)).lookup "custom_fields_values" = some w := by
  have hcfv : computeField data
      { source := "multiple", transform := some (contactCustomFields cfg) } = .ok w := by
    simp [computeField, hcf]
  simp only [applyMapping, contactMapping, applyMappingGo, hcfv]
  cases hn : computeField data
      { source := "call.agreements.client_name", transform := some contactNameTransform } with
  | ok nv =>
    simp only []
    by_cases hnv : isNullOrUndefined nv
    · rw [if_pos hnv, if_neg (by simp [hw]), List.lookup]
      rfl
    · rw [if_neg hnv, if_neg (by simp [hw])]
      rw [List.lookup]
      simp only [show ("custom_fields_values" == "name") = false from rfl]
      rw [List.lookup]
      rfl
  | error e =>
    simp only []
    rw [if_neg (by simp [hw]), List.lookup]
    rfl

theorem leadCustomFields_none (cfg : Config) (data v : JSValue)
    (h1 : cfg.agreementsFieldId = none) (h2 : cfg.clientFactsFieldId = none)
    (h3 : cfg.smsTextFieldId = none) (h4 : cfg.callDurationFieldId = none)
    (h5 : cfg.callStartedFieldId = none) (h6 : cfg.callRecordUrlFieldId = none)
    (h7 : cfg.callHistoryFieldId = none) (h8 : cfg.agreementsTimeFieldId = none)
    (h9 : cfg.regionFieldId = none) (h10 : cfg.companyFieldId = none)
    (hv : leadCustomFields cfg .null data = .ok v) : v = JSValue.null := by
  unfold leadCustomFields at hv
  rw [h1, h2, h3, h4, h5, h6, h7, h8, h9, h10] at hv
  cases hc : jsGet data "call" with
  | error e =>
    rw [hc] at hv
    simp [Bind.bind, Except.bind] at hv
  | ok c0 =>
    cases hct : jsGet data "contact" with
    | error e =>
      rw [hc, hct] at hv
      simp [Bind.bind, Except.bind] at hv
    | ok ct0 =>
      rw [hc, hct] at hv
      simp [Bind.bind, Except.bind, envTruthy, pure, Except.pure] at hv
      exact hv.symm

theorem contactCustomFields_phone (cfg : Config) (s ds : String) (hne : s ≠ "")
    (hds : String.mk (s.toList.filter Char.isDigit) = ds) (hd : ds ≠ "") :
    contactCustomFields cfg .null (phonePayload s) =
      .ok (.arr [phoneEntry (if strStartsWith ds "7" then "+" ++ ds else "+7" ++ ds)]) := by
  have hget : jsGet (phonePayload s) "contact" = .ok (.obj [("phone", .str s)]) := rfl
  have hrepl : jsReplaceNonDigits (JSValue.str s) = .ok ds := by
    rw [← hds]
    rfl
  unfold contactCustomFields
  rw [hget]
  simp only [Bind.bind, Except.bind]
  have hphone : getProp (jsOr (JSValue.obj [("phone", JSValue.str s)]) (JSValue.obj [])) "phone" =
      JSValue.str s := rfl
  rw [hphone]
  rw [show truthy (JSValue.str s) = true from by simp [truthy, hne]]
  simp only [if_true, reduceIte]
  rw [hrepl]
  simp only [Except.bind]
  rw [show (ds != "") = true from by simp [hd]]
  have hadd : optGet (getProp (jsOr (JSValue.obj [("phone", JSValue.str s)]) (JSValue.obj []))
      "additionalFields") "email" = JSValue.undefined := rfl
  have hadd2 : optGet (getProp (jsOr (JSValue.obj [("phone", JSValue.str s)]) (JSValue.obj []))
      "additionalFields") "company" = JSValue.undefined := rfl
  have hadd3 : optGet (getProp (jsOr (JSValue.obj [("phone", JSValue.str s)]) (JSValue.obj []))
      "additionalFields") "city" = JSValue.undefined := rfl
  rw [hadd, hadd2, hadd3]
  simp [truthy, pure, Except.pure]

/-- Claim C3: for every payload and every entity mapping, the output map
produced by `applyMapping` contains no key whose value is `null` or
`undefined`; a field whose computed value is nullish is omitted entirely. -/
theorem applyMapping_no_null_values (data : JSValue) (mapping : List (String × FieldConfig))
    (key : String) (v : JSValue)
    (h : (applyMapping data mapping).lookup key = some v) :
    v ≠ JSValue.null ∧ v ≠ JSValue.undefined :=
  lookup_applyMapping_of_ok data mapping key v h

/-- Witness for C3 at a concrete payload and the contact mapping. -/
theorem applyMapping_no_null_values_witness :
    (applyMapping payloadPhoneOnly (contactMapping cfgEmpty)).lookup "name" =
      some (JSValue.str "Контакт 79990001234") ∧
    (JSValue.str "Контакт 79990001234" ≠ JSValue.null ∧
     JSValue.str "Контакт 79990001234" ≠ JSValue.undefined) :=
  ⟨rfl, applyMapping_no_null_values payloadPhoneOnly (contactMapping cfgEmpty) "name"
      (JSValue.str "Контакт 79990001234") rfl⟩

/-- Claim C4: if computing one field of a mapping throws, that field is
omitted and the rest of the mapping is applied exactly as it would have
been without the failing field. -/
theorem applyMapping_isolates_field_errors (data : JSValue)
    (pre post : List (String × FieldConfig)) (name : String) (fc : FieldConfig) (e : String)
    (h : computeField data fc = .error e) :
    applyMapping data (pre ++ (name, fc) :: post) = applyMapping data (pre ++ post) :=
  applyMapping_error_field data pre post name fc e h

/-- Witness for C4: a numeric `call.agreements.client_name` makes the
contact `name` transform's `value.trim()` throw, and the contact mapping's
output equals the output of the mapping without the `name` field. -/
theorem applyMapping_isolates_field_errors_witness :
    computeField payloadBadName
      { source := "call.agreements.client_name", transform := some contactNameTransform } =
        .error "TypeError: value.trim is not a function" ∧
    applyMapping payloadBadName (contactMapping cfgEmpty) =
      applyMapping payloadBadName
        [("custom_fields_values",
          { source := "multiple", transform := some (contactCustomFields cfgEmpty) })] :=
  ⟨rfl, applyMapping_isolates_field_errors payloadBadName []
      [("custom_fields_values",
        { source := "multiple", transform := some (contactCustomFields cfgEmpty) })]
      "name" { source := "call.agreements.client_name", transform := some contactNameTransform }
      "TypeError: value.trim is not a function" rfl⟩

/-- Claim C7: `getValueByPath` resolution never throws (it always returns
an `ok` result), and on a three-segment dotted path it returns the
`null` sentinel whenever the optional-chain value of the path is
`undefined` — including malformed intermediates such as a string where an
object was expected. -/
theorem getValueByPath_total_and_notfound :
    (∀ (obj : JSValue) (path : String), ∃ v, getValueByPath obj path = .ok v) ∧
    (∀ (obj : JSValue) (path : String) (a b c : String),
      jsSplitDot path = [a, b, c] →
      optGet (optGet (optGet obj a) b) c = JSValue.undefined →
      getValueByPath obj path = .ok JSValue.null) := by
  constructor
  · intro obj path
    by_cases h : path = "" || path = "static" || path = "multiple"
    · exact ⟨JSValue.null, by simp [getValueByPath, h]⟩
    · obtain ⟨v, hv⟩ := walkPath_ok (jsSplitDot path) obj
      exact ⟨v, by simp only [getValueByPath, h, Bool.false_eq_true, if_false]; exact hv⟩
  · intro obj path a b c hsplit hmiss
    have hpne : ¬(path = "" || path = "static" || path = "multiple") := by
      intro hcontra
      rcases Bool.or_eq_true_iff.mp hcontra with hor | h3
      · rcases Bool.or_eq_true_iff.mp hor with h1 | h2
        · rw [show path = "" from by simpa using h1] at hsplit
          rw [show jsSplitDot "" = [""] from rfl] at hsplit
          simp at hsplit
        · rw [show path = "static" from by simpa using h2] at hsplit
          rw [show jsSplitDot "static" = ["static"] from rfl] at hsplit
          simp at hsplit
      · rw [show path = "multiple" from by simpa using h3] at hsplit
        rw [show jsSplitDot "multiple" = ["multiple"] from rfl] at hsplit
        simp at hsplit
    simp only [getValueByPath, hpne, Bool.false_eq_true, if_false]
    rw [hsplit]
    exact walkPath_missing [a, b, c] (by simp) obj (by simpa [optGetMany] using hmiss)

/-- Witness for C7: a payload in which `a` is a string, so `a.b` is
missing with a malformed intermediate type. -/
theorem getValueByPath_total_and_notfound_witness :
    jsSplitDot "a.b.c" = ["a", "b", "c"] ∧
    getValueByPath (JSValue.obj [("a", JSValue.str "zzz")]) "a.b.c" = .ok JSValue.null :=
  ⟨rfl, getValueByPath_total_and_notfound.2 (JSValue.obj [("a", JSValue.str "zzz")])
      "a.b.c" "a" "b" "c" rfl rfl⟩

/-- Claim C9: in the path walk of `getValueByPath`, a falsy value reached
at a non-final segment forces the `null` sentinel for the whole path, even
when the remaining segments would resolve on that value; a falsy value at
the final segment other than `undefined` is returned as-is.  The closed
instance shows the path `a.length` on `a = ""` yielding `null` although
`"".length` is the defined value `0`. -/
theorem getValueByPath_falsy_segments :
    (∀ (obj : JSValue) (parts₁ parts₂ : List String) (c : JSValue), parts₂ ≠ [] →
      walkPath obj parts₁ = .ok c → truthy c = false →
      walkPath obj (parts₁ ++ parts₂) = .ok JSValue.null) ∧
    (∀ (obj : JSValue) (parts : List String) (key : String) (c : JSValue),
      walkPath obj parts = .ok c → truthy c = true → isUndefined (getProp c key) = false →
      walkPath obj (parts ++ [key]) = .ok (getProp c key)) ∧
    (getValueByPath (JSValue.obj [("a", JSValue.str "")]) "a.length" = .ok JSValue.null ∧
     optGet (optGet (JSValue.obj [("a", JSValue.str "")]) "a") "length" = JSValue.num 0) := by
  refine ⟨?_, ?_, rfl, rfl⟩
  · intro obj parts₁ parts₂ c hne h hfalsy
    rw [walkPath_append parts₁ parts₂ obj, h]
    cases parts₂ with
    | nil => exact absurd rfl hne
    | cons k rest => simp [walkPath, gvpStep_falsy k hfalsy, walkPath_null]
  · intro obj parts key c h htruthy hdef
    rw [walkPath_append parts [key] obj, h]
    simp [walkPath, gvpStep_truthy key htruthy, hdef]

/-- Witness for C9: the falsy intermediate `0` at `a` nulls the walk of
`a.b`. -/
theorem getValueByPath_falsy_segments_witness :
    truthy (JSValue.num 0) = false ∧
    walkPath (JSValue.obj [("a", JSValue.num 0)]) ["a", "b"] = .ok JSValue.null :=
  ⟨rfl, getValueByPath_falsy_segments.1 (JSValue.obj [("a", JSValue.num 0)])
      ["a"] ["b"] (JSValue.num 0) (by simp) rfl rfl⟩

/-- Counterexample to C5 as stated: the claim's trailing clause says
strings of length at most 250 pass through unchanged, but the empty
agreements string is falsy, so the transform falls back to the default
lead name instead of passing `""` through. -/
theorem lead_name_truncation_counterexample :
    (applyMapping (agreementsPayload "") (leadMapping cfgEmpty)).lookup "name" =
      some (JSValue.str "Лид от AI менеджера") ∧
    JSValue.str "Лид от AI менеджера" ≠ JSValue.str "" := by
  refine ⟨rfl, ?_⟩
  intro h
  injection h with h1
  exact absurd h1 (by decide)

/-- Claim C5 (amended): an agreements string longer than 250 characters
becomes its first 247 characters followed by `"..."`; a nonempty string
of length at most 250 passes through unchanged (the empty string instead
falls back to the default name chain). -/
theorem lead_name_truncation (cfg : Config) (s : String) :
    (250 < s.length →
      (applyMapping (agreementsPayload s) (leadMapping cfg)).lookup "name" =
        some (JSValue.str (s.take 247 ++ "..."))) ∧
    (s ≠ "" → s.length ≤ 250 →
      (applyMapping (agreementsPayload s) (leadMapping cfg)).lookup "name" =
        some (JSValue.str s)) := by
  constructor
  · intro h
    apply applyMapping_lead_name
    · rw [show computeField (agreementsPayload s)
          { source := "call.agreements.agreements", transform := some leadNameTransform } =
          leadNameTransform (JSValue.str s) (agreementsPayload s) from rfl]
      exact leadNameTransform_long s (agreementsPayload s) h
    · rfl
  · intro hne h
    apply applyMapping_lead_name
    · rw [show computeField (agreementsPayload s)
          { source := "call.agreements.agreements", transform := some leadNameTransform } =
          leadNameTransform (JSValue.str s) (agreementsPayload s) from rfl]
      exact leadNameTransform_short s (agreementsPayload s) hne h
    · rfl

set_option maxRecDepth 10000 in
/-- Witness for C5 at the spec's example: three hundred `X` characters
truncate to the first two hundred forty-seven of them plus `"..."`. -/
theorem lead_name_truncation_witness :
    250 < xStr300.length ∧
    (applyMapping (agreementsPayload xStr300) (leadMapping cfgEmpty)).lookup "name" =
      some (JSValue.str (xStr300.take 247 ++ "...")) :=
  ⟨by decide, (lead_name_truncation cfgEmpty xStr300).1 (by decide)⟩

/-- Counterexample to C8 as stated: the fallback lead name built from the
phone is the Russian source literal, not the English string of the claim. -/
theorem lead_default_name_counterexample :
    (applyMapping payloadEmptyAgreements (leadMapping cfgEmpty)).lookup "name" ≠
      some (JSValue.str "Lead from AI manager: 79990001234") := by
  intro h
  rw [show (applyMapping payloadEmptyAgreements (leadMapping cfgEmpty)).lookup "name" =
      some (JSValue.str "Лид от AI менеджера: 79990001234") from rfl] at h
  have h2 := Option.some.inj h
  injection h2 with h3
  exact absurd h3 (by decide)

/-- Claim C8 (amended): with empty `call.agreements` and
`contact.phone = "79990001234"`, the lead name is exactly the source
literal `Лид от AI менеджера: 79990001234` (the claim's English string is
a translation of this literal). -/
theorem lead_default_name_phone (cfg : Config) :
    (applyMapping payloadEmptyAgreements (leadMapping cfg)).lookup "name" =
      some (JSValue.str "Лид от AI менеджера: 79990001234") := rfl

/-- Claim C10: every falsy `call.agreements.price` (including the number
`0`) makes the price transform yield `null`, so the `price` field is
omitted; the string `"0"` parses to the price `0` (which is kept), and a
string with a numeric prefix such as `"12abc"` parses to that prefix. -/
theorem lead_price_transform_cases :
    (∀ (v data : JSValue), truthy v = false → leadPriceTransform v data = .ok JSValue.null) ∧
    (∀ data : JSValue, leadPriceTransform (JSValue.str "0") data = .ok (JSValue.num 0)) ∧
    (∀ data : JSValue, leadPriceTransform (JSValue.str "12abc") data = .ok (JSValue.num 12)) ∧
    (applyMapping (pricePayload (JSValue.num 0)) (leadMapping cfgEmpty)).lookup "price" = none ∧
    (applyMapping (pricePayload (JSValue.str "0")) (leadMapping cfgEmpty)).lookup "price" =
      some (JSValue.num 0) := by
  refine ⟨?_, fun _ => rfl, fun _ => rfl, rfl, rfl⟩
  intro v data h
  simp [leadPriceTransform, h, pure, Except.pure]

/-- Witness for C10: the falsy price `0` yields `null`. -/
theorem lead_price_transform_cases_witness :
    truthy (JSValue.num 0) = false ∧
    leadPriceTransform (JSValue.num 0) (JSValue.obj []) = .ok JSValue.null :=
  ⟨rfl, lead_price_transform_cases.1 (JSValue.num 0) (JSValue.obj []) rfl⟩

/-- Claim C6: with `AMOCRM_PIPELINE_ID` unset (credentials present), the
detailed server variant's `createLeadInAmoCRM` throws its configuration
error before any network call, while the older variant performs no such
check and would submit the request body with `pipeline_id` silently
omitted from the mapped lead fields. -/
theorem lead_pipeline_id_preflight :
    createLeadPreflight cfgNoPipeline payloadPhoneOnly none =
      .err "AMOCRM_PIPELINE_ID не установлен в переменных окружения. Это обязательное поле для создания сделки." ∧
    createLeadPreflightV2 cfgNoPipeline payloadPhoneOnly none =
      .submit (applyMapping payloadPhoneOnly (leadMapping cfgNoPipeline)) ∧
    (applyMapping payloadPhoneOnly (leadMapping cfgNoPipeline)).lookup "pipeline_id" = none :=
  ⟨rfl, rfl, rfl⟩

/-- Counterexample to C1 as stated: for the phone digits `89990001234`
the produced PHONE value is `+789990001234` — the code prepends `+7` to
the full digit string without replacing the leading `8` — not the
`+79990001234` the claim asserts. -/
theorem contact_phone_counterexample :
    (applyMapping payloadPhone8 (contactMapping cfgEmpty)).lookup "custom_fields_values" =
      some (JSValue.arr [phoneEntry "+789990001234"]) ∧
    (applyMapping payloadPhone8 (contactMapping cfgEmpty)).lookup "custom_fields_values" ≠
      some (JSValue.arr [phoneEntry "+79990001234"]) := by
  refine ⟨rfl, ?_⟩
  intro h
  rw [show (applyMapping payloadPhone8 (contactMapping cfgEmpty)).lookup "custom_fields_values" =
      some (JSValue.arr [phoneEntry "+789990001234"]) from rfl] at h
  simp [phoneEntry] at h

/-- Claim C1 (amended): for a `contact.phone` whose digits are
`89990001234` the produced PHONE custom-field value is `+789990001234`
(the digits prefixed by `+7` as a whole, the leading `8` kept); for
digits `79990001234` it is `+79990001234`. -/
theorem contact_phone_custom_field (cfg : Config) (s : String) :
    (String.mk (s.toList.filter Char.isDigit) = "89990001234" →
      (applyMapping (phonePayload s) (contactMapping cfg)).lookup "custom_fields_values" =
        some (JSValue.arr [phoneEntry "+789990001234"])) ∧
    (String.mk (s.toList.filter Char.isDigit) = "79990001234" →
      (applyMapping (phonePayload s) (contactMapping cfg)).lookup "custom_fields_values" =
        some (JSValue.arr [phoneEntry "+79990001234"])) := by
  constructor
  · intro h
    have hne : s ≠ "" := by
      intro he
      subst he
      exact absurd h (by decide)
    have hcf := contactCustomFields_phone cfg s "89990001234" hne h (by decide)
    rw [if_neg (by decide)] at hcf
    exact applyMapping_contact_cfv cfg (phonePayload s) _ hcf rfl
  · intro h
    have hne : s ≠ "" := by
      intro he
      subst he
      exact absurd h (by decide)
    have hcf := contactCustomFields_phone cfg s "79990001234" hne h (by decide)
    rw [if_pos (by decide)] at hcf
    exact applyMapping_contact_cfv cfg (phonePayload s) _ hcf rfl

/-- Witness for C1 at the concrete phones of the claim. -/
theorem contact_phone_custom_field_witness :
    String.mk ("89990001234".toList.filter Char.isDigit) = "89990001234" ∧
    (applyMapping (phonePayload "89990001234") (contactMapping cfgEmpty)).lookup
        "custom_fields_values" = some (JSValue.arr [phoneEntry "+789990001234"]) ∧
    (applyMapping (phonePayload "79990001234") (contactMapping cfgEmpty)).lookup
        "custom_fields_values" = some (JSValue.arr [phoneEntry "+79990001234"]) :=
  ⟨by decide, (contact_phone_custom_field cfgEmpty "89990001234").1 (by decide),
    (contact_phone_custom_field cfgEmpty "79990001234").2 (by decide)⟩

/-- Counterexample to C2 as stated: with no custom-field ids configured
at all but a phone present, the contact output still contains
`custom_fields_values` (the PHONE entry is unconditional on
configuration). -/
theorem contact_custom_fields_counterexample :
    (applyMapping payloadPhoneOnly (contactMapping cfgEmpty)).lookup "custom_fields_values" ≠
      none := by
  intro h
  rw [show (applyMapping payloadPhoneOnly (contactMapping cfgEmpty)).lookup "custom_fields_values" =
      some (JSValue.arr [phoneEntry "+79990001234"]) from rfl] at h
  exact Option.noConfusion h

/-- Claim C2 (amended): with none of the lead custom-field ids configured
the lead output omits `custom_fields_values` for every payload; the
contact output, however, keeps `custom_fields_values` whenever the
unconditional PHONE/EMAIL entries fire — with no configuration at all and
a phone present, the key is present with exactly the PHONE entry. -/
theorem custom_fields_config_gating (cfg : Config)
    (h1 : cfg.agreementsFieldId = none) (h2 : cfg.clientFactsFieldId = none)
    (h3 : cfg.smsTextFieldId = none) (h4 : cfg.callDurationFieldId = none)
    (h5 : cfg.callStartedFieldId = none) (h6 : cfg.callRecordUrlFieldId = none)
    (h7 : cfg.callHistoryFieldId = none) (h8 : cfg.agreementsTimeFieldId = none)
    (h9 : cfg.regionFieldId = none) (h10 : cfg.companyFieldId = none) :
    (∀ data : JSValue,
      (applyMapping data (leadMapping cfg)).lookup "custom_fields_values" = none) ∧
    (applyMapping payloadPhoneOnly (contactMapping cfgEmpty)).lookup "custom_fields_values" =
      some (JSValue.arr [phoneEntry "+79990001234"]) := by
  refine ⟨?_, rfl⟩
  intro data
  apply lookup_applyMapping_eq_none
  intro nc hmem hkey v hok
  simp only [leadMapping, List.mem_cons, List.not_mem_nil, or_false] at hmem
  rcases hmem with h | h | h | h | h
  · rw [h] at hkey
    simp at hkey
  · rw [h] at hkey
    simp at hkey
  · rw [h] at hkey
    simp at hkey
  · rw [h] at hkey
    simp at hkey
  · rw [h] at hok
    rw [show computeField data
        { source := "multiple", transform := some (leadCustomFields cfg) } =
        leadCustomFields cfg JSValue.null data from rfl] at hok
    rw [leadCustomFields_none cfg data v h1 h2 h3 h4 h5 h6 h7 h8 h9 h10 hok]
    rfl

/-- Witness for C2: the unconfigured setup with a full phone payload. -/
theorem custom_fields_config_gating_witness :
    cfgEmpty.agreementsFieldId = none ∧
    (applyMapping payloadPhoneOnly (leadMapping cfgEmpty)).lookup "custom_fields_values" =
      none :=
  ⟨rfl, (custom_fields_config_gating cfgEmpty rfl rfl rfl rfl rfl rfl rfl rfl rfl rfl).1
      payloadPhoneOnly⟩
